import Mathlib

/-!
Verification of the WebPaymentsCOF request pipeline: a shallow embedding of
the request handlers (create payment, create card, list cards, search
customers), the JTD schema validators of `src/server/schema.js`, the
`async-retry` executor, and the `microrouter` route table, together with
theorems settling the specification's claims about them.
-/

namespace WebPaymentsCOF

/-- A decoded JSON value, as far as the handlers inspect one. -/
inductive JValue where
  | jstr (s : String)
  | jnum (n : Int)
  | jbool (b : Bool)
  | jnull
deriving DecidableEq, Repr

/-- A decoded request body: a finite map from field names to JSON values. -/
abbrev Payload := List (String × JValue)

/-- Field lookup on a payload; `none` plays the role of JS `undefined`. -/
def getField (p : Payload) (k : String) : Option JValue :=
  (p.find? (fun kv => kv.1 = k)).map (fun kv => kv.2)

/-- JS truthiness of a JSON value: empty string, zero, false and null are falsy. -/
def truthy : JValue → Bool
  | .jstr s => s ≠ ""
  | .jnum n => n ≠ 0
  | .jbool b => b
  | .jnull => false

/-- JS truthiness of a possibly-undefined value. -/
def truthyOpt : Option JValue → Bool
  | none => false
  | some v => truthy v

/-- The JS `a || b` operator on a possibly-undefined left operand. -/
def jsOr (v : Option JValue) (alt : JValue) : JValue :=
  match v with
  | some x => if truthy x then x else alt
  | none => alt

/-! Schema validators, from `src/server/schema.js`.  The schemas are ajv
JSON Type Definition (RFC 8927) schemas: keys under `properties` are
required, keys under `optionalProperties` are optional, and any key not
listed in either is rejected. -/

/-- The JTD `string` type check on a (possibly absent) field value. -/
def isStr : Option JValue → Bool
  | some (.jstr _) => true
  | _ => false

/-- The JTD `uint32` type check: an integer in the interval from 0 to 2^32 - 1. -/
def isUint32 : Option JValue → Bool
  | some (.jnum n) => decide (0 ≤ n) && decide (n < 4294967296)
  | _ => false

/-- An optional-field check: absent is fine, present must satisfy the type check. -/
def optOk (ty : Option JValue → Bool) (v : Option JValue) : Bool :=
  match v with
  | none => true
  | some x => ty (some x)

/-- The JTD additional-properties check: every key of the payload is listed. -/
def keysAllowed (p : Payload) (allowed : List String) : Bool :=
  p.all (fun kv => allowed.contains kv.1)

/-- Validator compiled from `paymentSchema`: `sourceId` and `locationId`
required strings; `amount` optional uint32; `idempotencyKey` and
`verificationToken` optional strings. -/
def validatePaymentPayload (p : Payload) : Bool :=
  isStr (getField p "sourceId") &&
  isStr (getField p "locationId") &&
  optOk isUint32 (getField p "amount") &&
  optOk isStr (getField p "idempotencyKey") &&
  optOk isStr (getField p "verificationToken") &&
  keysAllowed p ["sourceId", "locationId", "amount", "idempotencyKey", "verificationToken"]

/-- Validator compiled from `cardSchema`: all seven fields sit under
`properties`, so all seven are required. -/
def validateCardPayload (p : Payload) : Bool :=
  isUint32 (getField p "expMonth") &&
  isUint32 (getField p "expYear") &&
  isStr (getField p "cardHolderName") &&
  isStr (getField p "customerId") &&
  isStr (getField p "idempotencyKey") &&
  isStr (getField p "sourceId") &&
  isStr (getField p "verificationToken") &&
  keysAllowed p ["expMonth", "expYear", "cardHolderName", "customerId",
                 "idempotencyKey", "sourceId", "verificationToken"]

/-- Validator compiled from `listCardsSchema`: `customerId` required string. -/
def validateListCardsPayload (p : Payload) : Bool :=
  isStr (getField p "customerId") && keysAllowed p ["customerId"]

/-- Validator compiled from `searchCustomerSchema`: `emailAddress` required string. -/
def validateSearchCustomerPayload (p : Payload) : Bool :=
  isStr (getField p "emailAddress") && keysAllowed p ["emailAddress"]

/-! Module scope of the handler module (`src/unnamed/part_000`).  Its import
line for the schema module is `const { validatePaymentPayload } =
require('./server/schema')`, so of the four validators only
`validatePaymentPayload` is bound; and the payments client is bound as
`square` (`const { ApiError, client: square } = require('./server/square')`),
so the identifier `client` is unbound. -/

/-- The value identifiers bound at module scope in the handler module. -/
def moduleBindings : List String :=
  ["createError", "json", "send", "router", "get", "post", "staticHandler",
   "retry", "logger", "validatePaymentPayload", "ApiError", "square", "nanoid",
   "createPayment", "createCard", "listCards", "searchCustomers", "serveStatic"]

/-- Whether an identifier is bound at module scope. -/
def identBound (n : String) : Bool := moduleBindings.contains n

/-- Resolution of a validator identifier in the handler module: evaluating an
unbound identifier in JS raises a ReferenceError, modelled by `none`. -/
def resolveValidator (n : String) : Option (Payload → Bool) :=
  if n = "validatePaymentPayload" && identBound n then some validatePaymentPayload
  else none

/-! Errors and the try/catch classification shared by all four handlers. -/

/-- The error values a handler can observe or raise. -/
inductive ErrVal where
  | referenceError (name : String)
  | typeError
  | apiError (e : String)
  | genericError (e : String)
  | badRequest
deriving DecidableEq, Repr

/-- The `ex instanceof ApiError` test of the shared catch block. -/
def isApiError : ErrVal → Bool
  | .apiError _ => true
  | _ => false

/-! The retry executor, from the `async-retry` library: the operation receives
the 1-based attempt number; a normal return ends the loop, `bail` rejects at
once, a thrown error is retried until the `retries` budget (default 10, hence
at most 11 attempts) is exhausted, in which case the last error surfaces. -/

/-- Outcome of one attempt of a retried operation. -/
inductive Outcome (α : Type) (ε : Type) where
  | ok (a : α)
  | bail (e : ε)
  | transient (e : ε)
deriving DecidableEq, Repr

/-- The shared catch block: an ApiError bails, any other error is rethrown
for retry. -/
def classify {α : Type} (e : ErrVal) : Outcome α ErrVal :=
  if isApiError e then .bail e else .transient e

/-- One run of the retry loop starting at attempt number `a` with `r` retries
left; returns the overall result and the list of attempt numbers invoked. -/
def retryFrom {α ε : Type} (op : Nat → Outcome α ε) : Nat → Nat → Except ε α × List Nat
  | a, 0 =>
    match op a with
    | .ok x => (.ok x, [a])
    | .bail e => (.error e, [a])
    | .transient e => (.error e, [a])
  | a, r + 1 =>
    match op a with
    | .ok x => (.ok x, [a])
    | .bail e => (.error e, [a])
    | .transient _ =>
      let p := retryFrom op (a + 1) r
      (p.1, a :: p.2)

/-- The `retry(fn)` call: attempts start at 1 with `retries` retries allowed. -/
def retryExec {α ε : Type} (retries : Nat) (op : Nat → Outcome α ε) :
    Except ε α × List Nat :=
  retryFrom op 1 retries

/-- The `async-retry` default retries budget (up to 11 attempts in total). -/
def defaultRetries : Nat := 10

/-! The createPayment handler. -/

/-- The fixed `amountMoney` object of the payment request. -/
structure Money where
  amount : String
  currency : String
deriving DecidableEq, Repr

/-- The request object forwarded to `square.paymentsApi.createPayment`.  It is
rebuilt inside the retry callback on every attempt. -/
structure PaymentRequest where
  idempotencyKey : JValue
  locationId : Option JValue
  sourceId : Option JValue
  amountMoney : Money
  verificationToken : Option JValue
deriving DecidableEq, Repr

/-- The payment request built on attempt `a`: the idempotency key is
`payload.idempotencyKey || nanoid()` evaluated inside the loop, so each
attempt draws its own fresh `nanoid` value (`nanoid a`); `amountMoney` is the
hard-coded one dollar; `verificationToken` is attached only when truthy. -/
def paymentRequestAt (payload : Payload) (nanoid : Nat → String) (a : Nat) :
    PaymentRequest where
  idempotencyKey := jsOr (getField payload "idempotencyKey") (.jstr (nanoid a))
  locationId := getField payload "locationId"
  sourceId := getField payload "sourceId"
  amountMoney := { amount := "100", currency := "USD" }
  verificationToken :=
    if truthyOpt (getField payload "verificationToken") then
      getField payload "verificationToken"
    else none

/-- The fields of `result.payment` the handler reads on success. -/
structure PaymentResult where
  id : String
  status : String
  receiptUrl : String
  orderId : String
deriving DecidableEq, Repr

/-- Behaviour of one `square.paymentsApi.createPayment` call. -/
inductive PaymentClientResp where
  | ok (result : PaymentResult) (statusCode : Nat)
  | apiError (e : String)
  | otherError (e : String)
deriving DecidableEq, Repr

/-- The success body sent by the createPayment handler. -/
structure PaymentResponseBody where
  success : Bool
  paymentId : String
  paymentStatus : String
  receiptUrl : String
  orderId : String
deriving DecidableEq, Repr

/-- The response mapping of the createPayment handler. -/
def mkPaymentResponseBody (r : PaymentResult) : PaymentResponseBody where
  success := true
  paymentId := r.id
  paymentStatus := r.status
  receiptUrl := r.receiptUrl
  orderId := r.orderId

/-- One attempt of the createPayment retry callback: build the request, call
the client, classify any error through the shared catch block. -/
def createPaymentOp (payload : Payload) (nanoid : Nat → String)
    (client : Nat → PaymentRequest → PaymentClientResp) (a : Nat) :
    Outcome (Nat × PaymentResponseBody) ErrVal :=
  match client a (paymentRequestAt payload nanoid a) with
  | .ok r sc => .ok (sc, mkPaymentResponseBody r)
  | .apiError e => classify (.apiError e)
  | .otherError e => classify (.genericError e)

/-- The createPayment handler: validation (throwing 400 on failure), then the
retried client call.  Returns the overall result together with the list of
attempt numbers on which the client was called. -/
def createPaymentHandler (payload : Payload) (nanoid : Nat → String)
    (client : Nat → PaymentRequest → PaymentClientResp) (retries : Nat) :
    Except ErrVal (Nat × PaymentResponseBody) × List Nat :=
  match resolveValidator "validatePaymentPayload" with
  | none => (.error (.referenceError "validatePaymentPayload"), [])
  | some v =>
    if v payload then retryExec retries (createPaymentOp payload nanoid client)
    else (.error .badRequest, [])

/-- The sequence of request objects the createPayment handler passes to the
External Payments Client, one per attempt actually performed. -/
def createPaymentCalls (payload : Payload) (nanoid : Nat → String)
    (client : Nat → PaymentRequest → PaymentClientResp) (retries : Nat) :
    List PaymentRequest :=
  (createPaymentHandler payload nanoid client retries).2.map
    (paymentRequestAt payload nanoid)

/-! The createCard handler. -/

/-- The inner `card` object of the card request; note the source reads
`payload.customerID` (capital D) for the customer id. -/
structure CardFields where
  expMonth : Option JValue
  expYear : Option JValue
  cardHolderName : Option JValue
  customerId : Option JValue
deriving DecidableEq, Repr

/-- The request object forwarded to `square.cardsApi.createCard`; the
idempotency key is again `payload.idempotencyKey || nanoid()` inside the
retry loop. -/
structure CardRequest where
  card : CardFields
  idempotencyKey : JValue
  sourceId : Option JValue
  verificationToken : Option JValue
deriving DecidableEq, Repr

/-- The card request built on attempt `a`. -/
def cardRequestAt (payload : Payload) (nanoid : Nat → String) (a : Nat) :
    CardRequest where
  card :=
    { expMonth := getField payload "expMonth"
      expYear := getField payload "expYear"
      cardHolderName := getField payload "cardHolderName"
      customerId := getField payload "customerID" }
  idempotencyKey := jsOr (getField payload "idempotencyKey") (.jstr (nanoid a))
  sourceId := getField payload "sourceId"
  verificationToken := getField payload "verificationToken"

/-- The fields of `result.card` the handler reads on success. -/
structure CardResult where
  id : String
deriving DecidableEq, Repr

/-- Behaviour of one `square.cardsApi.createCard` call. -/
inductive CardClientResp where
  | ok (result : CardResult) (statusCode : Nat)
  | apiError (e : String)
  | otherError (e : String)
deriving DecidableEq, Repr

/-- The success body sent by the createCard handler. -/
structure CardResponseBody where
  success : Bool
  cardId : String
deriving DecidableEq, Repr

/-- One attempt of the createCard retry callback. -/
def createCardOp (payload : Payload) (nanoid : Nat → String)
    (client : Nat → CardRequest → CardClientResp) (a : Nat) :
    Outcome (Nat × CardResponseBody) ErrVal :=
  match client a (cardRequestAt payload nanoid a) with
  | .ok r sc => .ok (sc, { success := true, cardId := r.id })
  | .apiError e => classify (.apiError e)
  | .otherError e => classify (.genericError e)

/-- The createCard handler.  Its validation step evaluates the identifier
`validateCardPayload`, which is not bound in the module. -/
def createCardHandler (payload : Payload) (nanoid : Nat → String)
    (client : Nat → CardRequest → CardClientResp) (retries : Nat) :
    Except ErrVal (Nat × CardResponseBody) × List Nat :=
  match resolveValidator "validateCardPayload" with
  | none => (.error (.referenceError "validateCardPayload"), [])
  | some v =>
    if v payload then retryExec retries (createCardOp payload nanoid client)
    else (.error .badRequest, [])

/-! The listCards and searchCustomers handlers.  Their retry callbacks
reference the identifier `client`, which is unbound (the payments client is
imported under the name `square`): evaluating it raises a ReferenceError,
which the catch block classifies as retryable since it is not an ApiError. -/

/-- One record of the list-cards result array, as read by the handler
(`result[0].card` with fields `id`, `cardBrand`, `last4`). -/
structure CardRecord where
  id : String
  cardBrand : String
  last4 : String
deriving DecidableEq, Repr

/-- Behaviour of one `cardsApi.listCards` call. -/
inductive ListCardsClientResp where
  | ok (result : List CardRecord) (statusCode : Nat)
  | apiError (e : String)
  | otherError (e : String)
deriving DecidableEq, Repr

/-- The success body sent by the listCards handler (first card only). -/
structure ListCardsResponseBody where
  success : Bool
  cardId : String
  cardBrand : String
  last4 : String
deriving DecidableEq, Repr

/-- One attempt of the listCards retry callback: evaluating `client` first;
were it bound, the call would proceed and `result[0]` of an empty result
would raise a TypeError (retryable). -/
def listCardsOp (payload : Payload)
    (client : Nat → Option JValue → ListCardsClientResp) (a : Nat) :
    Outcome (Nat × ListCardsResponseBody) ErrVal :=
  if identBound "client" then
    match client a (getField payload "customerId") with
    | .ok result sc =>
      match result.head? with
      | some c =>
        .ok (sc, { success := true, cardId := c.id, cardBrand := c.cardBrand,
                   last4 := c.last4 })
      | none => classify .typeError
    | .apiError e => classify (.apiError e)
    | .otherError e => classify (.genericError e)
  else classify (.referenceError "client")

/-- The listCards handler.  Its validation step evaluates the identifier
`validateListCardsPayload`, which is not bound in the module. -/
def listCardsHandler (payload : Payload)
    (client : Nat → Option JValue → ListCardsClientResp) (retries : Nat) :
    Except ErrVal (Nat × ListCardsResponseBody) × List Nat :=
  match resolveValidator "validateListCardsPayload" with
  | none => (.error (.referenceError "validateListCardsPayload"), [])
  | some v =>
    if v payload then retryExec retries (listCardsOp payload client)
    else (.error .badRequest, [])

/-- One record of the customer search result, as read by the handler
(`result[0].customer` with fields `id`, `givenName`, `familyName`). -/
structure CustomerRecord where
  id : String
  givenName : String
  familyName : String
deriving DecidableEq, Repr

/-- The query object built by searchCustomers:
`query.filter.emailAddress.exact = payload.emailAddress`. -/
structure SearchQuery where
  exactEmail : Option JValue
deriving DecidableEq, Repr

/-- Behaviour of one `customersApi.searchCustomers` call. -/
inductive SearchClientResp where
  | ok (result : List CustomerRecord) (statusCode : Nat)
  | apiError (e : String)
  | otherError (e : String)
deriving DecidableEq, Repr

/-- The success body sent by the searchCustomers handler (first match only). -/
structure SearchResponseBody where
  success : Bool
  customerId : String
  givenName : String
  familyName : String
deriving DecidableEq, Repr

/-- One attempt of the searchCustomers retry callback. -/
def searchCustomersOp (payload : Payload)
    (client : Nat → SearchQuery → SearchClientResp) (a : Nat) :
    Outcome (Nat × SearchResponseBody) ErrVal :=
  if identBound "client" then
    match client a { exactEmail := getField payload "emailAddress" } with
    | .ok result sc =>
      match result.head? with
      | some c =>
        .ok (sc, { success := true, customerId := c.id, givenName := c.givenName,
                   familyName := c.familyName })
      | none => classify .typeError
    | .apiError e => classify (.apiError e)
    | .otherError e => classify (.genericError e)
  else classify (.referenceError "client")

/-- The searchCustomers handler.  Its validation step evaluates the identifier
`validateSearchCustomerPayload`, which is not bound in the module. -/
def searchCustomersHandler (payload : Payload)
    (client : Nat → SearchQuery → SearchClientResp) (retries : Nat) :
    Except ErrVal (Nat × SearchResponseBody) × List Nat :=
  match resolveValidator "validateSearchCustomerPayload" with
  | none => (.error (.referenceError "validateSearchCustomerPayload"), [])
  | some v =>
    if v payload then retryExec retries (searchCustomersOp payload client)
    else (.error .badRequest, [])

/-! The route table, from the `module.exports = router(...)` call.
`microrouter` tries the routes in registration order and dispatches to the
first whose method and path pattern match. -/

/-- An HTTP method, as far as the route table distinguishes them. -/
inductive Method where
  | GET
  | POST
deriving DecidableEq, Repr

/-- Path-pattern matching: the wildcard pattern matches every path, any
other pattern in this table is a literal. -/
def patternMatches (pat path : String) : Bool :=
  if pat = "/*" then true else pat = path

/-- One registered route: method, path pattern, handler name. -/
structure Route where
  method : Method
  pattern : String
  handlerName : String
deriving DecidableEq, Repr

/-- The route table, in registration order: note `get('/*', serveStatic)`
is registered before `get('/cards', listCards)`. -/
def routes : List Route :=
  [ { method := .POST, pattern := "/cof", handlerName := "createCard" }
  , { method := .POST, pattern := "/payment", handlerName := "createPayment" }
  , { method := .GET, pattern := "/*", handlerName := "serveStatic" }
  , { method := .GET, pattern := "/cards", handlerName := "listCards" }
  , { method := .POST, pattern := "/searchCustomer", handlerName := "searchCustomers" } ]

/-- Router dispatch: the first matching route wins. -/
def dispatch (m : Method) (path : String) : Option String :=
  (routes.find? (fun r => r.method == m && patternMatches r.pattern path)).map
    Route.handlerName

/-! Concrete payloads and client behaviours used to instantiate theorems. -/

/-- The spec's example payload for create-payment. -/
def payloadSL : Payload := [("sourceId", .jstr "src1"), ("locationId", .jstr "loc1")]

/-- The spec's example payload with a client-supplied `amount` field added. -/
def payloadSLAmount : Payload :=
  [("sourceId", .jstr "src1"), ("locationId", .jstr "loc1"), ("amount", .jnum 250)]

/-- A concrete stream of distinct `nanoid` draws. -/
def nanoidK : Nat → String := fun i => "K" ++ toString i

/-- A client that fails transiently on attempt 1 and succeeds from attempt 2 on. -/
def clientFailOnce : Nat → PaymentRequest → PaymentClientResp := fun a _ =>
  if a = 1 then .otherError "socket hang up"
  else .ok { id := "p1", status := "COMPLETED", receiptUrl := "u", orderId := "o" } 200

/-- A card payload carrying the five fields the spec calls required, with
correct types, and neither `idempotencyKey` nor `verificationToken`. -/
def cardPayloadNoOpt : Payload :=
  [("expMonth", .jnum 11), ("expYear", .jnum 2027), ("cardHolderName", .jstr "Jane Doe"),
   ("customerId", .jstr "cust1"), ("sourceId", .jstr "cnon")]

/-- A card payload carrying all seven fields of `cardSchema` with correct types. -/
def cardPayloadFull : Payload :=
  [("expMonth", .jnum 11), ("expYear", .jnum 2027), ("cardHolderName", .jstr "Jane Doe"),
   ("customerId", .jstr "cust1"), ("idempotencyKey", .jstr "ik1"), ("sourceId", .jstr "cnon"),
   ("verificationToken", .jstr "vt1")]

/-! Lemmas about the retry executor. -/

/-- A normal return on the current attempt ends the loop at once. -/
theorem retryFrom_ok {α ε : Type} (op : Nat → Outcome α ε) (a r : Nat) (x : α)
    (h : op a = .ok x) : retryFrom op a r = (.ok x, [a]) := by
  cases r <;> simp [retryFrom, h]

/-- A bail on the current attempt rejects at once, with no further attempts. -/
theorem retryFrom_bail {α ε : Type} (op : Nat → Outcome α ε) (a r : Nat) (e : ε)
    (h : op a = .bail e) : retryFrom op a r = (.error e, [a]) := by
  cases r <;> simp [retryFrom, h]

/-- When every attempt in the remaining window raises a retryable error, the
loop performs each attempt once, in increasing order, and surfaces the last
error. -/
theorem retryFrom_all_transient {α ε : Type} (op : Nat → Outcome α ε) (err : Nat → ε) :
    ∀ r a : Nat, (∀ i, a ≤ i → i ≤ a + r → op i = .transient (err i)) →
      retryFrom op a r = ((Except.error (err (a + r)) : Except ε α), List.range' a (r + 1)) := by
  intro r
  induction r with
  | zero =>
    intro a h
    have ha := h a (Nat.le_refl a) (Nat.le_refl a)
    simp [retryFrom, ha, List.range']
  | succ r ih =>
    intro a h
    have ha := h a (Nat.le_refl a) (by omega)
    have hrec := ih (a + 1) (fun i h1 h2 => h i (by omega) (by omega))
    have harith : a + 1 + r = a + (r + 1) := by omega
    simp [retryFrom, ha, hrec, harith, List.range'_succ]

/-- For a valid payload, the createPayment handler is exactly the retried
client call. -/
theorem createPaymentHandler_valid (payload : Payload) (nanoid : Nat → String)
    (client : Nat → PaymentRequest → PaymentClientResp) (retries : Nat)
    (hval : validatePaymentPayload payload = true) :
    createPaymentHandler payload nanoid client retries =
      retryFrom (createPaymentOp payload nanoid client) 1 retries := by
  have hres : resolveValidator "validatePaymentPayload" = some validatePaymentPayload := rfl
  simp [createPaymentHandler, hres, hval, retryExec]

/-! Claim theorems. -/

/-- Claim C1, counterexample: for the valid create-payment payload without an
idempotencyKey, with a transient failure on attempt 1 and success on attempt
2, the handler makes two external calls whose idempotency keys are the two
distinct fresh nanoid draws, not one shared key: the key is computed inside
the retry callback, not once before the loop. -/
theorem c1_counterexample :
    validatePaymentPayload payloadSL = true ∧
    getField payloadSL "idempotencyKey" = none ∧
    (createPaymentCalls payloadSL nanoidK clientFailOnce defaultRetries).map
        PaymentRequest.idempotencyKey = [.jstr "K1", .jstr "K2"] ∧
    JValue.jstr "K1" ≠ JValue.jstr "K2" := by
  exact ⟨by decide, rfl, by decide, by decide⟩

/-- Claim C1, amended: the idempotency key is recomputed inside the retry
callback on every attempt.  When the payload supplies a non-empty
idempotencyKey string, every attempt forwards that same key; when the field
is absent, attempt `a` forwards its own fresh nanoid draw, so distinct
attempts of one logical request may carry distinct keys. -/
theorem c1_amended (payload : Payload) (nanoid : Nat → String) (a : Nat) :
    (getField payload "idempotencyKey" = none →
      (paymentRequestAt payload nanoid a).idempotencyKey = .jstr (nanoid a)) ∧
    (∀ k : String, getField payload "idempotencyKey" = some (.jstr k) → k ≠ "" →
      (paymentRequestAt payload nanoid a).idempotencyKey = .jstr k) := by
  constructor
  · intro h
    simp [paymentRequestAt, jsOr, h]
  · intro k h hk
    simp [paymentRequestAt, jsOr, h, truthy, hk]

/-- Claim C1, witness for the amended statement at concrete inputs. -/
theorem c1_amended_witness :
    (paymentRequestAt payloadSL nanoidK 3).idempotencyKey = .jstr (nanoidK 3) ∧
    (paymentRequestAt [("idempotencyKey", .jstr "idem-7")] nanoidK 3).idempotencyKey
      = .jstr "idem-7" :=
  ⟨(c1_amended payloadSL nanoidK 3).1 rfl,
   (c1_amended [("idempotencyKey", .jstr "idem-7")] nanoidK 3).2 "idem-7" rfl (by decide)⟩

/-- Claim C2: the createCard, listCards and searchCustomers handlers evaluate
validator identifiers that are never bound in the module, so for every
payload they fail with a ReferenceError before the validation check
completes: they never produce the 400 bad-request classification and never
call the External Payments Client.  Only createPayment's validator
resolves. -/
theorem c2_validators_unbound (payload : Payload) (nanoid : Nat → String)
    (cc : Nat → CardRequest → CardClientResp)
    (lc : Nat → Option JValue → ListCardsClientResp)
    (sc : Nat → SearchQuery → SearchClientResp) (retries : Nat) :
    createCardHandler payload nanoid cc retries
      = (.error (.referenceError "validateCardPayload"), []) ∧
    listCardsHandler payload lc retries
      = (.error (.referenceError "validateListCardsPayload"), []) ∧
    searchCustomersHandler payload sc retries
      = (.error (.referenceError "validateSearchCustomerPayload"), []) ∧
    (createCardHandler payload nanoid cc retries).1 ≠ .error .badRequest ∧
    (listCardsHandler payload lc retries).1 ≠ .error .badRequest ∧
    (searchCustomersHandler payload sc retries).1 ≠ .error .badRequest ∧
    resolveValidator "validatePaymentPayload" = some validatePaymentPayload := by
  refine ⟨rfl, rfl, rfl, ?_, ?_, ?_, rfl⟩ <;> intro h <;>
    exact ErrVal.noConfusion (Except.error.inj h)

/-- Claim C3: the request forwarded to the payments client carries the fixed
amountMoney of 100 USD cents on every attempt, and the whole forwarded
request is unchanged when the client-supplied amount field changes: two
payloads agreeing on idempotencyKey, locationId, sourceId and
verificationToken produce identical requests, whatever their amount
fields. -/
theorem c3_amount_fixed (p q : Payload) (nanoid : Nat → String) (a : Nat)
    (_hval : validatePaymentPayload p = true)
    (hik : getField p "idempotencyKey" = getField q "idempotencyKey")
    (hloc : getField p "locationId" = getField q "locationId")
    (hsrc : getField p "sourceId" = getField q "sourceId")
    (hver : getField p "verificationToken" = getField q "verificationToken") :
    (paymentRequestAt p nanoid a).amountMoney = { amount := "100", currency := "USD" } ∧
    paymentRequestAt p nanoid a = paymentRequestAt q nanoid a := by
  refine ⟨rfl, ?_⟩
  simp [paymentRequestAt, hik, hloc, hsrc, hver]

/-- Claim C3, witness: adding amount 250 to the spec's example payload leaves
the forwarded request unchanged, with the fixed one-dollar amountMoney. -/
theorem c3_amount_fixed_witness :
    (paymentRequestAt payloadSLAmount nanoidK 1).amountMoney
      = { amount := "100", currency := "USD" } ∧
    paymentRequestAt payloadSLAmount nanoidK 1 = paymentRequestAt payloadSL nanoidK 1 :=
  c3_amount_fixed payloadSLAmount payloadSL nanoidK 1 (by decide) rfl rfl rfl rfl

/-- Claim C4, evaluated at the failing input: for the empty payload, which
every validator rejects, the createCard handler does not produce the 400
bad-request classification the claim requires; it fails with a
ReferenceError on the unbound identifier `validateCardPayload` (the
validator exists in `src/server/schema.js` but is not imported).  Only the
createPayment handler behaves as claimed, rejecting with 400 and making
zero external calls. -/
theorem c4_card_validation_never_reached :
    createCardHandler [] nanoidK (fun _ _ => .otherError "down") defaultRetries
      = (.error (.referenceError "validateCardPayload"), []) ∧
    ErrVal.referenceError "validateCardPayload" ≠ ErrVal.badRequest ∧
    createPaymentHandler [] nanoidK (fun _ _ => .otherError "down") defaultRetries
      = (.error .badRequest, []) := by
  exact ⟨rfl, by decide, rfl⟩

/-- Claim C5: the retry callbacks of listCards and searchCustomers evaluate
the unbound identifier `client` (the payments client is imported as
`square`), so every attempt raises a ReferenceError; being no ApiError it is
classified retryable, never a bail and never a success. -/
theorem c5_client_unbound (payload : Payload)
    (lc : Nat → Option JValue → ListCardsClientResp)
    (sc : Nat → SearchQuery → SearchClientResp) (a : Nat) :
    listCardsOp payload lc a = .transient (.referenceError "client") ∧
    searchCustomersOp payload sc a = .transient (.referenceError "client") ∧
    identBound "client" = false ∧
    identBound "square" = true ∧
    isApiError (.referenceError "client") = false :=
  ⟨rfl, rfl, rfl, rfl, rfl⟩

/-- Claim C6: for a valid payload, an ApiError on attempt 1 bails: exactly
one external call happens, no retries, and the handler's overall result is
that failure. -/
theorem c6_api_error_bails (payload : Payload) (nanoid : Nat → String)
    (client : Nat → PaymentRequest → PaymentClientResp) (retries : Nat) (e : String)
    (hval : validatePaymentPayload payload = true)
    (h1 : client 1 (paymentRequestAt payload nanoid 1) = .apiError e) :
    createPaymentHandler payload nanoid client retries = (.error (.apiError e), [1]) := by
  rw [createPaymentHandler_valid payload nanoid client retries hval]
  have hop : createPaymentOp payload nanoid client 1 = .bail (.apiError e) := by
    simp [createPaymentOp, h1, classify, isApiError]
  exact retryFrom_bail _ 1 retries _ hop

/-- Claim C6, witness: a client rejecting attempt 1 with an ApiError yields
exactly one call and that failure. -/
theorem c6_api_error_bails_witness :
    createPaymentHandler payloadSL nanoidK (fun _ _ => .apiError "INVALID_CARD") defaultRetries
      = (.error (.apiError "INVALID_CARD"), [1]) :=
  c6_api_error_bails payloadSL nanoidK _ defaultRetries "INVALID_CARD" (by decide) rfl

/-- Claim C7: for a valid payload, if every attempt up to the maximum
(`retries + 1` attempts in total) raises a non-ApiError failure, the handler
performs exactly that many external calls, on the consecutive 1-based
attempt numbers 1, 2, ..., retries + 1, and the overall result is the last
failure, never a success. -/
theorem c7_retries_exhausted (payload : Payload) (nanoid : Nat → String)
    (client : Nat → PaymentRequest → PaymentClientResp) (retries : Nat) (errs : Nat → String)
    (hval : validatePaymentPayload payload = true)
    (hall : ∀ a, 1 ≤ a → a ≤ retries + 1 →
      client a (paymentRequestAt payload nanoid a) = .otherError (errs a)) :
    createPaymentHandler payload nanoid client retries
      = (.error (.genericError (errs (retries + 1))), List.range' 1 (retries + 1)) ∧
    ∀ x, (createPaymentHandler payload nanoid client retries).1 ≠ .ok x := by
  have hmain : createPaymentHandler payload nanoid client retries
      = (.error (.genericError (errs (retries + 1))), List.range' 1 (retries + 1)) := by
    rw [createPaymentHandler_valid payload nanoid client retries hval]
    have hop : ∀ i, 1 ≤ i → i ≤ 1 + retries →
        createPaymentOp payload nanoid client i
          = .transient (.genericError (errs i)) := by
      intro i h1 h2
      simp [createPaymentOp, hall i h1 (by omega), classify, isApiError]
    have := retryFrom_all_transient (createPaymentOp payload nanoid client)
      (fun i => ErrVal.genericError (errs i)) retries 1 hop
    simpa [Nat.add_comm] using this
  refine ⟨hmain, ?_⟩
  intro x h
  rw [hmain] at h
  exact Except.noConfusion h

/-- Claim C7, witness: with two retries allowed and every attempt failing
transiently, exactly the three attempts 1, 2, 3 happen and the result is the
third attempt's failure. -/
theorem c7_retries_exhausted_witness :
    createPaymentHandler payloadSL nanoidK (fun a _ => .otherError ("E" ++ toString a)) 2
      = (.error (.genericError "E3"), [1, 2, 3]) :=
  (c7_retries_exhausted payloadSL nanoidK _ 2 (fun a => "E" ++ toString a)
    (by decide) (fun _ _ _ => rfl)).1

/-- Claim C8, evaluated at the failing input: a GET request for `/cards` is
dispatched to the static-asset handler, not to listCards, because the
wildcard route `get('/*', serveStatic)` is registered before
`get('/cards', listCards)` and microrouter takes the first match; the
static server is not a fallback for this path. -/
theorem c8_get_cards_shadowed :
    dispatch .GET "/cards" = some "serveStatic" ∧
    dispatch .GET "/cards" ≠ some "listCards" := by
  exact ⟨by decide, by decide⟩

/-- Claim C9: for a valid payload, a first-attempt success with a result and
status code makes exactly one external call and responds with that status
code and the body mapping id, status, receiptUrl and orderId out of
`result.payment`. -/
theorem c9_first_attempt_success (payload : Payload) (nanoid : Nat → String)
    (client : Nat → PaymentRequest → PaymentClientResp) (retries : Nat)
    (r : PaymentResult) (sc : Nat)
    (hval : validatePaymentPayload payload = true)
    (h1 : client 1 (paymentRequestAt payload nanoid 1) = .ok r sc) :
    createPaymentHandler payload nanoid client retries
      = (.ok (sc, { success := true, paymentId := r.id, paymentStatus := r.status,
                    receiptUrl := r.receiptUrl, orderId := r.orderId }), [1]) := by
  rw [createPaymentHandler_valid payload nanoid client retries hval]
  have hop : createPaymentOp payload nanoid client 1 = .ok (sc, mkPaymentResponseBody r) := by
    simp [createPaymentOp, h1]
  exact retryFrom_ok _ 1 retries _ hop

/-- Claim C9, witness: a client succeeding on attempt 1 with status 200
produces one call and the mapped response body. -/
theorem c9_first_attempt_success_witness :
    createPaymentHandler payloadSL nanoidK
        (fun _ _ => .ok { id := "pay1", status := "COMPLETED",
                          receiptUrl := "https://r", orderId := "ord1" } 200)
        defaultRetries
      = (.ok (200, { success := true, paymentId := "pay1", paymentStatus := "COMPLETED",
                     receiptUrl := "https://r", orderId := "ord1" }), [1]) :=
  c9_first_attempt_success payloadSL nanoidK _ defaultRetries
    { id := "pay1", status := "COMPLETED", receiptUrl := "https://r", orderId := "ord1" }
    200 (by decide) rfl

/-- Claim C10, counterexample: a card payload carrying exactly the fields the
claim calls required, all correctly typed, with idempotencyKey and
verificationToken absent, is rejected by the card validator: `cardSchema`
lists all seven fields under the required `properties` form. -/
theorem c10_counterexample :
    isUint32 (getField cardPayloadNoOpt "expMonth") = true ∧
    isUint32 (getField cardPayloadNoOpt "expYear") = true ∧
    isStr (getField cardPayloadNoOpt "cardHolderName") = true ∧
    isStr (getField cardPayloadNoOpt "customerId") = true ∧
    isStr (getField cardPayloadNoOpt "sourceId") = true ∧
    getField cardPayloadNoOpt "idempotencyKey" = none ∧
    getField cardPayloadNoOpt "verificationToken" = none ∧
    validateCardPayload cardPayloadNoOpt = false := by decide

/-- Claim C10, amended: the card validator treats all seven fields of
`cardSchema`, including idempotencyKey and verificationToken, as required:
a payload missing either of those two is rejected, and a payload is accepted
when all seven fields are present with their declared types and no unlisted
field appears. -/
theorem c10_amended (p : Payload) :
    (getField p "idempotencyKey" = none → validateCardPayload p = false) ∧
    (getField p "verificationToken" = none → validateCardPayload p = false) ∧
    (isUint32 (getField p "expMonth") = true → isUint32 (getField p "expYear") = true →
     isStr (getField p "cardHolderName") = true → isStr (getField p "customerId") = true →
     isStr (getField p "idempotencyKey") = true → isStr (getField p "sourceId") = true →
     isStr (getField p "verificationToken") = true →
     keysAllowed p ["expMonth", "expYear", "cardHolderName", "customerId",
                    "idempotencyKey", "sourceId", "verificationToken"] = true →
     validateCardPayload p = true) := by
  refine ⟨?_, ?_, ?_⟩
  · intro h
    simp [validateCardPayload, isStr, h]
  · intro h
    simp [validateCardPayload, isStr, h]
  · intro h1 h2 h3 h4 h5 h6 h7 h8
    simp [validateCardPayload, h1, h2, h3, h4, h5, h6, h7, h8]

/-- Claim C10, witness for the amended statement: the five-field payload is
rejected, the seven-field payload is accepted. -/
theorem c10_amended_witness :
    validateCardPayload cardPayloadNoOpt = false ∧
    validateCardPayload cardPayloadFull = true :=
  ⟨(c10_amended cardPayloadNoOpt).1 rfl,
   (c10_amended cardPayloadFull).2.2 (by decide) (by decide) (by decide) (by decide)
     (by decide) (by decide) (by decide) (by decide)⟩

end WebPaymentsCOF
